import Mathlib

/-!
Shallow embedding of lib/model.js (SAPI data model): parameter assembly,
entity CRUD with referential checks, bucket initialization, and the
deployment orchestration, together with theorems about the claims of the
specification.  External collaborators (moray key-value store, UFDS user
lookup, IMGAPI image lookup, VMAPI provisioning) are modelled as oracle
fields of an explicit `World` state; callback errors are `Err` values and
thrown exceptions (failed asserts, null dereferences) are `crash` outcomes.
-/

namespace Sapi

/-- Parameter and field values stored in a flat JS object. -/
inductive Value where
  | str (s : String)
  | num (n : Int)
  | strs (l : List String)
deriving DecidableEq, Repr

/-- A flat JS object: an insertion-ordered association list.  Objects built
by the code below always have pairwise distinct keys. -/
abbrev Params := List (String × Value)

/-- JS property assignment `p[k] = v`: overwrite in place if the key exists
(first occurrence; keys are unique in actual JS objects), else append. -/
def jsSet : Params → String → Value → Params
  | [], k, v => [(k, v)]
  | kv :: rest, k, v =>
      if kv.1 = k then (k, v) :: rest else kv :: jsSet rest k v

/-- JS property read `p[k]`. -/
def jsGet : Params → String → Option Value
  | [], _ => none
  | kv :: rest, k => if kv.1 = k then some kv.2 else jsGet rest k

/-- One `Object.keys(src).forEach(key => dst[key] = src[key])` pass copying
an optional params map into dst, guarded by `if (x.params)`
(lib/model.js lines 415-429); an absent map contributes nothing. -/
def copyInto (dst : Params) (src : Option Params) : Params :=
  match src with
  | none => dst
  | some s => s.foldl (fun d kv => jsSet d kv.1 kv.2) dst

/-- An application, service, or instance record.  Fields the caller did not
supply are `none`; the code touches only `uuid` before persisting. -/
structure Entity where
  uuid : Option String := none
  name : Option String := none
  owner_uuid : Option String := none
  application_uuid : Option String := none
  image_uuid : Option String := none
  service_uuid : Option String := none
  params : Option Params := none
deriving DecidableEq, Repr

/-- Errors travelling through callbacks. -/
inductive Err where
  | mk (msg : String)        -- an Error constructed by model.js itself
  | backend (tag : String)   -- an error object surfaced by an external client
  | bucketNotFound           -- the moray BucketNotFoundError
deriving DecidableEq, Repr

/-- The two moray search filters used by model.js:
`(uuid=%s)` in getObject and `(uuid=*)` in listObjects. -/
inductive Filter where
  | byUuid (u : String)
  | all
deriving DecidableEq, Repr

/-- Names of the three moray buckets (lib/model.js lines 16-18). -/
def APPLICATIONS : String := "sapi_applications"

/-- Name of the services bucket. -/
def SERVICES : String := "sapi_services"

/-- Name of the instances bucket. -/
def INSTANCES : String := "sapi_instances"

/-- State of the model and its external collaborators: the three moray
buckets (key-value lists), fault oracles for moray find and put, the UFDS
user-lookup oracle, the IMGAPI image-lookup oracle, the VMAPI result
oracle, and call logs recording each image lookup and VM creation
request. -/
structure World where
  apps : List (String × Entity) := []
  svcs : List (String × Entity) := []
  insts : List (String × Entity) := []
  findFault : String → Filter → Option Err := fun _ _ => none
  putFault : String → String → Option Err := fun _ _ => none
  getUser : String → Except Err Unit := fun _ => .ok ()
  getImage : String → Except Err (Option Unit) := fun _ => .ok (some ())
  createVmRes : Params → Option Err := fun _ => none
  imgCalls : List String := []
  vmCalls : List Params := []

/-- Contents of a bucket by name. -/
def World.bucket (w : World) (b : String) : List (String × Entity) :=
  if b = APPLICATIONS then w.apps
  else if b = SERVICES then w.svcs
  else if b = INSTANCES then w.insts
  else []

/-- Replace the contents of a bucket by name. -/
def World.setBucket (w : World) (b : String) (l : List (String × Entity)) :
    World :=
  if b = APPLICATIONS then { w with apps := l }
  else if b = SERVICES then { w with svcs := l }
  else if b = INSTANCES then { w with insts := l }
  else w

/-- Whether a record matches a moray filter. -/
def matchesFilter : Filter → Entity → Bool
  | .byUuid u, e => e.uuid = some u
  | .all, e => e.uuid.isSome

/-- Moray upsert by key, as putObject behaves. -/
def upsert (l : List (String × Entity)) (k : String) (v : Entity) :
    List (String × Entity) :=
  if l.any (fun kv => kv.1 = k) then
    l.map (fun kv => if kv.1 = k then (k, v) else kv)
  else l ++ [(k, v)]

/-- findObjects (lib/model.js lines 144-164): streams the records of a
bucket matching a filter, or fails with the error the moray client
raised. -/
def findObjects (w : World) (b : String) (f : Filter) :
    Except Err (List Entity) :=
  match w.findFault b f with
  | some e => .error e
  | none => .ok (((w.bucket b).filter (fun kv => matchesFilter f kv.2)).map
      Prod.snd)

/-- getObject (lib/model.js lines 172-186): returns the first match of the
filter `(uuid=%s)`, null when absent, and an error only when the find
itself failed. -/
def getObject (w : World) (b : String) (u : String) :
    Except Err (Option Entity) :=
  match findObjects w b (.byUuid u) with
  | .error e => .error e
  | .ok objs => .ok objs.head?

/-- putObject: moray upsert keyed by identifier, or the injected fault. -/
def putObject (w : World) (b : String) (k : String) (v : Entity) :
    Except Err World :=
  match w.putFault b k with
  | some e => .error e
  | none => .ok (w.setBucket b (upsert (w.bucket b) k v))

/-- getApplication (lib/model.js lines 242-244). -/
def getApplication (w : World) (u : String) : Except Err (Option Entity) :=
  getObject w APPLICATIONS u

/-- getService (lib/model.js lines 325-327). -/
def getService (w : World) (u : String) : Except Err (Option Entity) :=
  getObject w SERVICES u

/-- getInstance (lib/model.js lines 393-395). -/
def getInstance (w : World) (u : String) : Except Err (Option Entity) :=
  getObject w INSTANCES u

/-- validOwnerUUID (lib/model.js lines 96-112): any UFDS lookup error,
not-found included, is coerced to false; success is true. -/
def validOwnerUUID (w : World) (o : String) : Bool :=
  match w.getUser o with
  | .error _ => false
  | .ok _ => true

/-- Result of a create operation: either the final callback fired with an
optional error and the (possibly mutated) record, or an exception was
thrown before the callback (a failed assert). -/
inductive CreateRes where
  | cb (e : Option Err) (record : Entity)
  | crash (msg : String)
deriving DecidableEq, Repr

/-- Error component of a create result. -/
def CreateRes.errOf : CreateRes → Option Err
  | .cb e _ => e
  | .crash _ => none

/-- Record component of a create result. -/
def CreateRes.recordOf : CreateRes → Option Entity
  | .cb _ r => some r
  | .crash _ => none

/-- The record as persisted: the input with a generated uuid assigned when
the caller supplied none (lib/model.js lines 206-208, 270-271, 352-353). -/
def storedRecord (g : String) (e : Entity) : Entity :=
  if e.uuid = none then { e with uuid := some g } else e

/-- createApplication (lib/model.js lines 195-236): assert required fields,
assign a uuid if absent, then waterfall owner check and put; the final
callback always receives the mutated record.  `g` is the uuid
node-uuid.v4() would generate. -/
def createApplication (w : World) (g : String) (app : Entity) :
    CreateRes × World :=
  match app.name, app.owner_uuid with
  | none, _ => (.crash "AssertionError: app.name (string) is required", w)
  | some _, none =>
      (.crash "AssertionError: app.owner_uuid (string) is required", w)
  | some _, some o =>
    let app := storedRecord g app
    if validOwnerUUID w o then
      match putObject w APPLICATIONS (app.uuid.getD "") app with
      | .error e => (.cb (some e) app, w)
      | .ok w2 => (.cb none app, w2)
    else
      (.cb (some (.mk ("invalid user: " ++ o))) app, w)

/-- createService (lib/model.js lines 258-319): assert required fields,
assign a uuid if absent, then waterfall application check, image check, and
put; a lookup error or not-found at either check becomes the referential
error of that step, and the final callback always receives the record. -/
def createService (w : World) (g : String) (svc : Entity) :
    CreateRes × World :=
  match svc.name, svc.application_uuid, svc.image_uuid with
  | none, _, _ =>
      (.crash "AssertionError: service.name (string) is required", w)
  | some _, none, _ =>
      (.crash "AssertionError: service.application_uuid (string) is required",
        w)
  | some _, some _, none =>
      (.crash "AssertionError: service.image_uuid (string) is required", w)
  | some _, some a, some i =>
    let svc := storedRecord g svc
    match getApplication w a with
    | .error _ =>
        (.cb (some (.mk ("application " ++ a ++ " doesn\x27t exist"))) svc, w)
    | .ok none =>
        (.cb (some (.mk ("application " ++ a ++ " doesn\x27t exist"))) svc, w)
    | .ok (some _) =>
      let w := { w with imgCalls := w.imgCalls ++ [i] }
      match w.getImage i with
      | .error _ =>
          (.cb (some (.mk ("image " ++ i ++ " doesn\x27t exist"))) svc, w)
      | .ok none =>
          (.cb (some (.mk ("image " ++ i ++ " doesn\x27t exist"))) svc, w)
      | .ok (some _) =>
        match putObject w SERVICES (svc.uuid.getD "") svc with
        | .error e => (.cb (some e) svc, w)
        | .ok w2 => (.cb none svc, w2)

/-- createInstance (lib/model.js lines 341-387): assert required fields,
assign a uuid if absent, then waterfall service check and put. -/
def createInstance (w : World) (g : String) (inst : Entity) :
    CreateRes × World :=
  match inst.name, inst.service_uuid with
  | none, _ =>
      (.crash "AssertionError: instance.name (string) is required", w)
  | some _, none =>
      (.crash "AssertionError: instance.service_uuid (string) is required", w)
  | some _, some su =>
    let inst := storedRecord g inst
    match getService w su with
    | .error _ =>
        (.cb (some (.mk ("service " ++ su ++ " doesn\x27t exist"))) inst, w)
    | .ok none =>
        (.cb (some (.mk ("service " ++ su ++ " doesn\x27t exist"))) inst, w)
    | .ok (some _) =>
      match putObject w INSTANCES (inst.uuid.getD "") inst with
      | .error e => (.cb (some e) inst, w)
      | .ok w2 => (.cb none inst, w2)

/-- assembleParams (lib/model.js lines 409-443): three shallow-merge passes
app, then svc, then inst, then the three derived fields are written
unconditionally; a failed assert on a missing derived source field is a
thrown exception, modelled as `.error`. -/
def assembleParams (app svc inst : Entity) : Except String Params :=
  let p := copyInto [] app.params
  let p := copyInto p svc.params
  let p := copyInto p inst.params
  match app.owner_uuid with
  | none => .error "AssertionError: app.owner_uuid (string) is required"
  | some o =>
    let p := jsSet p "owner_uuid" (.str o)
    match svc.image_uuid with
    | none => .error "AssertionError: svc.image_uuid (string) is required"
    | some i =>
      let p := jsSet p "image_uuid" (.str i)
      match inst.uuid with
      | none => .error "AssertionError: inst.uuid (string) is required"
      | some u => .ok (jsSet p "uuid" (.str u))

/-- Deployment-fixed fields attached by deployZone (lib/model.js lines
452-462), overwriting any same-named assembled keys. -/
def zoneFixedParams (p : Params) : Params :=
  let p := jsSet p "brand" (.str "joyent-minimal")
  let p := jsSet p "ram" (.num 256)
  let p := jsSet p "networks" (.strs ["cda22a50-15bd-43cf-b379-be0cbac60cb4"])
  jsSet p "server_uuid" (.str "44454c4c-4800-1034-804a-b2c04f354d31")

/-- deployZone (lib/model.js lines 445-474): attach the fixed fields and
submit one createVm request; the request is recorded whether or not the
provisioner then fails. -/
def deployZone (w : World) (p : Params) : Option Err × World :=
  let q := zoneFixedParams p
  let w := { w with vmCalls := w.vmCalls ++ [q] }
  (w.createVmRes q, w)

/-- Observable outcome of deployInstance: whether and with what the final
callback fired, whether an exception was thrown (crashing the process),
the last waterfall stage entered (1 resolve service, 2 resolve
application, 3 assemble, 4 provision), and the resulting world. -/
structure DeployResult where
  cbErr : Option (Option Err)
  crashed : Option String
  stage : Nat
  world : World

/-- deployInstance (lib/model.js lines 476-533).  Stage 1 has no `return`
after `subcb(suberr)` and no null check at all: on a lookup error the final
callback fires and then `service.application_uuid` is read off undefined,
and on not-found `service` is null and the same read throws, so in both
cases the process crashes.  Stage 2 has the same missing `return`, so a
lookup error there fires the callback and then stage 3 runs on an undefined
application, and a not-found application reaches stage 3 as null; either
way assembleParams throws reading `app.params`. -/
def deployInstance (w : World) (inst : Entity) : DeployResult :=
  match inst.service_uuid with
  | none =>
      { cbErr := none,
        crashed :=
          some "AssertionError: instance.service_uuid (string) is required",
        stage := 0, world := w }
  | some su =>
    match getService w su with
    | .error e =>
        { cbErr := some (some e),
          crashed :=
            some "TypeError: cannot read application_uuid of undefined",
          stage := 1, world := w }
    | .ok none =>
        { cbErr := none,
          crashed := some "TypeError: cannot read application_uuid of null",
          stage := 1, world := w }
    | .ok (some svc) =>
      match svc.application_uuid with
      | none =>
          { cbErr := none,
            crashed :=
              some "AssertionError: service.application_uuid is required",
            stage := 1, world := w }
      | some au =>
        match getApplication w au with
        | .error e =>
            { cbErr := some (some e),
              crashed := some "TypeError: cannot read params of undefined",
              stage := 3, world := w }
        | .ok none =>
            { cbErr := none,
              crashed := some "TypeError: cannot read params of null",
              stage := 3, world := w }
        | .ok (some app) =>
          match assembleParams app svc inst with
          | .error m =>
              { cbErr := none, crashed := some m, stage := 3, world := w }
          | .ok p =>
            match deployZone w p with
            | (some e, w2) =>
                { cbErr := some (some e), crashed := none, stage := 4,
                  world := w2 }
            | (none, w2) =>
                { cbErr := some none, crashed := none, stage := 4,
                  world := w2 }

/-- State of the moray bucket metadata plus fault oracles for getBucket
(errors other than absence) and createBucket. -/
structure BucketWorld where
  existing : List String := []
  getBucketFault : String → Option Err := fun _ => none
  createBucketFault : String → Option Err := fun _ => none

/-- Moray getBucket: an injected fault, else success when the bucket
exists, else BucketNotFoundError. -/
def getBucket (bw : BucketWorld) (name : String) : Except Err Unit :=
  match bw.getBucketFault name with
  | some e => .error e
  | none => if name ∈ bw.existing then .ok () else .error .bucketNotFound

/-- createBucket (lib/model.js lines 114-142): no-op when getBucket
succeeds, pass through a getBucket error that is not BucketNotFoundError,
otherwise create the bucket, turning a creation failure into the fixed
Error. -/
def createBucket (bw : BucketWorld) (name : String) :
    Option Err × BucketWorld :=
  match getBucket bw name with
  | .ok _ => (none, bw)
  | .error .bucketNotFound =>
    match bw.createBucketFault name with
    | some _ => (some (.mk "failed to create bucket"), bw)
    | none => (none, { bw with existing := bw.existing ++ [name] })
  | .error e => (some e, bw)

/-- initBuckets (lib/model.js lines 70-90): vasync.forEachParallel over the
three bucket names, joined into one callback whose error is set when any
call failed.  Each call reads and writes only its own bucket name, so the
parallel fan-out and join is modelled by sequential composition. -/
def initBuckets (bw : BucketWorld) : Option Err × BucketWorld :=
  let r1 := createBucket bw APPLICATIONS
  let r2 := createBucket r1.2 SERVICES
  let r3 := createBucket r2.2 INSTANCES
  (r1.1 <|> r2.1 <|> r3.1, r3.2)

/-- Lookup in an optional params map; an absent map yields nothing. -/
def optGet (op : Option Params) (k : String) : Option Value :=
  match op with
  | none => none
  | some p => jsGet p k

theorem jsGet_jsSet (p : Params) (k : String) (v : Value) (k2 : String) :
    jsGet (jsSet p k v) k2 = if k2 = k then some v else jsGet p k2 := by
  induction p with
  | nil =>
      by_cases h : k2 = k
      · simp [jsSet, jsGet, h]
      · have h' : ¬k = k2 := fun he => h he.symm
        simp [jsSet, jsGet, h, h']
  | cons kv rest ih =>
      by_cases hk : kv.1 = k
      · by_cases h2 : k2 = k
        · simp [jsSet, jsGet, hk, h2]
        · have h2' : ¬k = k2 := fun he => h2 he.symm
          simp [jsSet, jsGet, hk, h2, h2']
      · by_cases h3 : kv.1 = k2
        · have h2 : ¬k2 = k := fun he => hk (h3.trans he)
          simp [jsSet, jsGet, hk, h2, h3]
        · simp [jsSet, jsGet, hk, h3, ih]

theorem jsGet_eq_none (p : Params) (k : String)
    (h : k ∉ p.map Prod.fst) : jsGet p k = none := by
  induction p with
  | nil => rfl
  | cons kv rest ih =>
      simp only [List.map_cons, List.mem_cons] at h
      push_neg at h
      simp [jsGet, Ne.symm h.1, ih h.2]

theorem jsGet_foldl (s : Params) (d : Params) (k : String)
    (h : (s.map Prod.fst).Nodup) :
    jsGet (s.foldl (fun d kv => jsSet d kv.1 kv.2) d) k =
      (jsGet s k).or (jsGet d k) := by
  induction s generalizing d with
  | nil => simp [jsGet]
  | cons kv rest ih =>
      simp only [List.map_cons, List.nodup_cons] at h
      rw [List.foldl_cons, ih _ h.2]
      by_cases hk : kv.1 = k
      · have hnone : jsGet rest k = none := by
          refine jsGet_eq_none rest k ?_
          rw [show k = kv.1 from hk.symm]
          exact h.1
        simp [jsGet, jsGet_jsSet, hk, hnone, eq_comm]
      · have hk' : ¬k = kv.1 := fun he => hk he.symm
        simp [jsGet, jsGet_jsSet, hk, hk']

theorem jsGet_copyInto (d : Params) (op : Option Params) (k : String)
    (h : ((op.getD []).map Prod.fst).Nodup) :
    jsGet (copyInto d op) k = (optGet op k).or (jsGet d k) := by
  cases op with
  | none => simp [copyInto, optGet]
  | some s =>
      simpa [copyInto, optGet] using jsGet_foldl s d k (by simpa using h)

/-- C1: assembleParams returns the flat map obtained by shallow-merging the
application params, then the service params, then the instance params,
later levels overwriting earlier ones, and then unconditionally sets
owner_uuid to the application owner_uuid, image_uuid to the service
image_uuid, and uuid to the instance uuid, regardless of any user params of
the same names; an absent params map at any level contributes nothing. -/
theorem assembleParams_merge_precedence (app svc inst : Entity)
    (o i u : String)
    (ho : app.owner_uuid = some o) (hi : svc.image_uuid = some i)
    (hu : inst.uuid = some u)
    (ha : (((app.params).getD []).map Prod.fst).Nodup)
    (hs : (((svc.params).getD []).map Prod.fst).Nodup)
    (hin : (((inst.params).getD []).map Prod.fst).Nodup) :
    ∃ P, assembleParams app svc inst = .ok P ∧ ∀ k : String,
      jsGet P k =
        if k = "uuid" then some (.str u)
        else if k = "image_uuid" then some (.str i)
        else if k = "owner_uuid" then some (.str o)
        else (optGet inst.params k).or
          ((optGet svc.params k).or (optGet app.params k)) := by
  have hok : assembleParams app svc inst = .ok (jsSet (jsSet (jsSet
      (copyInto (copyInto (copyInto [] app.params) svc.params) inst.params)
      "owner_uuid" (.str o)) "image_uuid" (.str i)) "uuid" (.str u)) := by
    simp only [assembleParams, ho, hi, hu]
  refine ⟨_, hok, ?_⟩
  intro k
  rw [jsGet_jsSet, jsGet_jsSet, jsGet_jsSet, jsGet_copyInto _ _ _ hin,
    jsGet_copyInto _ _ _ hs, jsGet_copyInto _ _ _ ha]
  simp [jsGet]

/-- Witness for C1 at the example of the specification. -/
theorem assembleParams_merge_precedence_witness :
    ∃ P, assembleParams
        { owner_uuid := some "own1",
          params := some [("a", Value.num 1), ("b", Value.num 1)] }
        { image_uuid := some "img1",
          params := some [("b", Value.num 2), ("c", Value.num 2)] }
        { uuid := some "uu1",
          params := some [("c", Value.num 3), ("d", Value.num 3)] } =
        .ok P ∧ ∀ k : String,
      jsGet P k =
        if k = "uuid" then some (.str "uu1")
        else if k = "image_uuid" then some (.str "img1")
        else if k = "owner_uuid" then some (.str "own1")
        else (optGet (some [("c", Value.num 3), ("d", Value.num 3)]) k).or
          ((optGet (some [("b", Value.num 2), ("c", Value.num 2)]) k).or
            (optGet (some [("a", Value.num 1), ("b", Value.num 1)]) k)) :=
  assembleParams_merge_precedence _ _ _ "own1" "img1" "uu1" rfl rfl rfl
    (by decide) (by decide) (by decide)

theorem bucket_apps (w : World) : w.bucket APPLICATIONS = w.apps := rfl

theorem bucket_svcs (w : World) : w.bucket SERVICES = w.svcs := rfl

theorem bucket_insts (w : World) : w.bucket INSTANCES = w.insts := rfl

theorem setBucket_apps (w : World) (l : List (String × Entity)) :
    w.setBucket APPLICATIONS l = { w with apps := l } := rfl

theorem setBucket_svcs (w : World) (l : List (String × Entity)) :
    w.setBucket SERVICES l = { w with svcs := l } := rfl

theorem setBucket_insts (w : World) (l : List (String × Entity)) :
    w.setBucket INSTANCES l = { w with insts := l } := rfl

theorem filter_no_match (l : List (String × Entity)) (u : String)
    (h : ∀ kv ∈ l, kv.2.uuid ≠ some u) :
    l.filter (fun kv => matchesFilter (.byUuid u) kv.2) = [] := by
  induction l with
  | nil => rfl
  | cons kv rest ih =>
      have h1 : kv.2.uuid ≠ some u := h kv (List.mem_cons_self _ _)
      simp only [List.filter_cons]
      rw [if_neg (by simp [matchesFilter, h1])]
      exact ih (fun x hx => h x (List.mem_cons_of_mem _ hx))

theorem getObject_absent (w : World) (b u : String)
    (hf : w.findFault b (.byUuid u) = none)
    (habs : ∀ kv ∈ w.bucket b, kv.2.uuid ≠ some u) :
    getObject w b u = .ok none := by
  simp [getObject, findObjects, hf, filter_no_match _ _ habs]

theorem getObject_fault (w : World) (b u : String) (e : Err)
    (hf : w.findFault b (.byUuid u) = some e) :
    getObject w b u = .error e := by
  simp [getObject, findObjects, hf]

/-- C7: for an identifier absent from a bucket, getObject returns an
explicit not-found result rather than an error, and it errors exactly when
the underlying storage query itself fails; getApplication, getService and
getInstance are this lookup on the three entity namespaces. -/
theorem get_absent_is_notFound (w : World) (b u : String)
    (habs : ∀ kv ∈ w.bucket b, kv.2.uuid ≠ some u) :
    (w.findFault b (.byUuid u) = none → getObject w b u = .ok none) ∧
    (∀ e : Err, w.findFault b (.byUuid u) = some e →
      getObject w b u = .error e) ∧
    getApplication w u = getObject w APPLICATIONS u ∧
    getService w u = getObject w SERVICES u ∧
    getInstance w u = getObject w INSTANCES u :=
  ⟨fun hf => getObject_absent w b u hf habs,
   fun e hf => getObject_fault w b u e hf, rfl, rfl, rfl⟩

/-- Witness for C7 on a world holding one application under another uuid. -/
theorem get_absent_is_notFound_witness :
    getObject { apps := [("k1", { uuid := some "k1", name := some "a" })] }
      APPLICATIONS "zz" = .ok none :=
  (get_absent_is_notFound
    { apps := [("k1", { uuid := some "k1", name := some "a" })] }
    APPLICATIONS "zz" (by decide)).1 rfl

/-- C4: validOwnerUUID coerces every identity-service lookup failure,
not-found included, to false, and createApplication then fails with the
same invalid-user error and writes nothing, so the two failure causes are
indistinguishable to its caller. -/
theorem validOwnerUUID_coerces_errors
    (w1 w2 : World) (g1 g2 u nm : String) (app : Entity) (e1 e2 : Err)
    (h1 : w1.getUser u = .error e1) (h2 : w2.getUser u = .error e2)
    (hn : app.name = some nm) (ho : app.owner_uuid = some u) :
    validOwnerUUID w1 u = false ∧ validOwnerUUID w2 u = false ∧
    (createApplication w1 g1 app).1.errOf =
      some (.mk ("invalid user: " ++ u)) ∧
    (createApplication w1 g1 app).1.errOf =
      (createApplication w2 g2 app).1.errOf ∧
    (createApplication w1 g1 app).2 = w1 := by
  have hv1 : validOwnerUUID w1 u = false := by simp [validOwnerUUID, h1]
  have hv2 : validOwnerUUID w2 u = false := by simp [validOwnerUUID, h2]
  refine ⟨hv1, hv2, ?_, ?_, ?_⟩ <;>
    simp [createApplication, hn, ho, hv1, hv2, CreateRes.errOf]

/-- Witness for C4: a not-found failure and an unreachable-service failure
produce the same invalid-user error. -/
theorem validOwnerUUID_coerces_errors_witness :
    (createApplication { getUser := fun _ => .error .bucketNotFound } "g1"
      { name := some "app1", owner_uuid := some "u1" }).1.errOf =
      some (.mk ("invalid user: " ++ "u1")) :=
  (validOwnerUUID_coerces_errors
    { getUser := fun _ => .error .bucketNotFound }
    { getUser := fun _ => .error (.backend "ufds unreachable") }
    "g1" "g2" "u1" "app1" { name := some "app1", owner_uuid := some "u1" }
    .bucketNotFound (.backend "ufds unreachable")
    rfl rfl rfl rfl).2.2.1

theorem createApplication_cb (w : World) (g : String) (app : Entity)
    (nm o : String) (han : app.name = some nm)
    (hao : app.owner_uuid = some o) :
    ∃ e, (createApplication w g app).1 = .cb e (storedRecord g app) := by
  simp only [createApplication, han, hao]
  by_cases hv : validOwnerUUID w o
  · cases hput : putObject w APPLICATIONS
      ((storedRecord g app).uuid.getD "") (storedRecord g app) with
    | error e => exact ⟨some e, by simp [hv, hput]⟩
    | ok w2 => exact ⟨none, by simp [hv, hput]⟩
  · exact ⟨some (.mk ("invalid user: " ++ o)), by simp [hv]⟩

theorem createService_cb (w : World) (g : String) (svc : Entity)
    (nm a i : String) (hn : svc.name = some nm)
    (ha : svc.application_uuid = some a) (hi : svc.image_uuid = some i) :
    ∃ e, (createService w g svc).1 = .cb e (storedRecord g svc) := by
  simp only [createService, hn, ha, hi]
  cases hga : getApplication w a with
  | error e =>
      exact ⟨some (.mk ("application " ++ a ++ " doesn\x27t exist")),
        by simp [hga]⟩
  | ok oapp =>
    cases oapp with
    | none =>
        exact ⟨some (.mk ("application " ++ a ++ " doesn\x27t exist")),
          by simp [hga]⟩
    | some x =>
      cases hgi : w.getImage i with
      | error e =>
          exact ⟨some (.mk ("image " ++ i ++ " doesn\x27t exist")),
            by simp [hga, hgi]⟩
      | ok oimg =>
        cases oimg with
        | none =>
            exact ⟨some (.mk ("image " ++ i ++ " doesn\x27t exist")),
              by simp [hga, hgi]⟩
        | some y =>
          cases hput : putObject { w with imgCalls := w.imgCalls ++ [i] }
              SERVICES ((storedRecord g svc).uuid.getD "")
              (storedRecord g svc) with
          | error e => exact ⟨some e, by simp [hga, hgi, hput]⟩
          | ok w2 => exact ⟨none, by simp [hga, hgi, hput]⟩

theorem createInstance_cb (w : World) (g : String) (inst : Entity)
    (nm su : String) (hn : inst.name = some nm)
    (hs : inst.service_uuid = some su) :
    ∃ e, (createInstance w g inst).1 = .cb e (storedRecord g inst) := by
  simp only [createInstance, hn, hs]
  cases hgs : getService w su with
  | error e =>
      exact ⟨some (.mk ("service " ++ su ++ " doesn\x27t exist")),
        by simp [hgs]⟩
  | ok osvc =>
    cases osvc with
    | none =>
        exact ⟨some (.mk ("service " ++ su ++ " doesn\x27t exist")),
          by simp [hgs]⟩
    | some x =>
      cases hput : putObject w INSTANCES
          ((storedRecord g inst).uuid.getD "") (storedRecord g inst) with
      | error e => exact ⟨some e, by simp [hgs, hput]⟩
      | ok w2 => exact ⟨none, by simp [hgs, hput]⟩

/-- C10: when the caller supplies no uuid, the generated uuid is assigned
onto the record before any referential check runs, so the record handed to
the final callback carries the generated uuid in every outcome, failures
included; createApplication in particular passes the mutated record to its
callback alongside the invalid-user error. -/
theorem create_mutates_input_uuid_before_checks
    (w : World) (g nm o a i su : String) (app svc inst : Entity) (e0 : Err)
    (hau : app.uuid = none) (han : app.name = some nm)
    (hao : app.owner_uuid = some o)
    (hsu : svc.uuid = none) (hsn : svc.name = some nm)
    (hsa : svc.application_uuid = some a) (hsi : svc.image_uuid = some i)
    (hiu : inst.uuid = none) (hinm : inst.name = some nm)
    (his : inst.service_uuid = some su) :
    (∃ e, (createApplication w g app).1 =
      .cb e { app with uuid := some g }) ∧
    (∃ e, (createService w g svc).1 = .cb e { svc with uuid := some g }) ∧
    (∃ e, (createInstance w g inst).1 =
      .cb e { inst with uuid := some g }) ∧
    (w.getUser o = .error e0 →
      (createApplication w g app).1 =
        .cb (some (.mk ("invalid user: " ++ o))) { app with uuid := some g }) := by
  have hsr1 : storedRecord g app = { app with uuid := some g } := by
    simp [storedRecord, hau]
  have hsr2 : storedRecord g svc = { svc with uuid := some g } := by
    simp [storedRecord, hsu]
  have hsr3 : storedRecord g inst = { inst with uuid := some g } := by
    simp [storedRecord, hiu]
  refine ⟨hsr1 ▸ createApplication_cb w g app nm o han hao,
    hsr2 ▸ createService_cb w g svc nm a i hsn hsa hsi,
    hsr3 ▸ createInstance_cb w g inst nm su hinm his, fun hge => ?_⟩
  have hv : validOwnerUUID w o = false := by simp [validOwnerUUID, hge]
  simp [createApplication, han, hao, hv, hsr1]

/-- Witness for C10 on an empty world where the owner lookup fails. -/
theorem create_mutates_input_uuid_before_checks_witness :
    (createApplication { getUser := fun _ => .error (.backend "down") } "g9"
      { name := some "n", owner_uuid := some "o9" }).1 =
      .cb (some (.mk ("invalid user: " ++ "o9")))
        { name := some "n", owner_uuid := some "o9", uuid := some "g9" } :=
  (create_mutates_input_uuid_before_checks
    { getUser := fun _ => .error (.backend "down") } "g9" "n" "o9" "a9" "i9"
    "s9" { name := some "n", owner_uuid := some "o9" }
    { name := some "n", application_uuid := some "a9",
      image_uuid := some "i9" }
    { name := some "n", service_uuid := some "s9" } (.backend "down")
    rfl rfl rfl rfl rfl rfl rfl rfl rfl rfl).2.2.2 rfl

/-- C3 (code bug): deploying an instance whose service_uuid names no
existing service does stop at the resolve-service stage, never reaching
parameter assembly or provisioning, but it does so by throwing a TypeError
on the null lookup result rather than aborting with a descriptive error
naming the missing service; the callback never fires. -/
theorem deployInstance_missing_service_crashes :
    (deployInstance {} { service_uuid := some "s1" }).crashed =
      some "TypeError: cannot read application_uuid of null" ∧
    (deployInstance {} { service_uuid := some "s1" }).cbErr = none ∧
    (deployInstance {} { service_uuid := some "s1" }).stage = 1 ∧
    (deployInstance {} { service_uuid := some "s1" }).world.vmCalls = [] :=
  ⟨rfl, rfl, rfl, rfl⟩

/-- C2: a failing referential check in createService returns a referential
error and writes nothing: the application check runs first and its failure
suppresses the image check, an image-check failure also writes nothing, and
the single write to the services bucket happens only when both checks have
passed; likewise a missing service fails createInstance and an invalid
owner fails createApplication, each leaving the store untouched. -/
theorem create_refchecks_failfast_no_write
    (w : World) (g nm a i su o : String) (svc inst app : Entity)
    (hn : svc.name = some nm) (ha : svc.application_uuid = some a)
    (hi : svc.image_uuid = some i)
    (hin1 : inst.name = some nm) (hin2 : inst.service_uuid = some su)
    (han : app.name = some nm) (hao : app.owner_uuid = some o) :
    (∀ e r, (createService w g svc).1 = .cb (some e) r →
      (createService w g svc).2.svcs = w.svcs) ∧
    (w.findFault APPLICATIONS (.byUuid a) = none →
      (∀ kv ∈ w.apps, kv.2.uuid ≠ some a) →
      (createService w g svc).1.errOf =
        some (.mk ("application " ++ a ++ " doesn\x27t exist")) ∧
      (createService w g svc).2 = w) ∧
    ((∃ x, getApplication w a = .ok (some x)) →
      (w.getImage i = .ok none ∨ ∃ e, w.getImage i = .error e) →
      (createService w g svc).1.errOf =
        some (.mk ("image " ++ i ++ " doesn\x27t exist")) ∧
      (createService w g svc).2.svcs = w.svcs) ∧
    ((createService w g svc).1.errOf = none →
      (∃ x, getApplication w a = .ok (some x)) ∧
      (∃ y, w.getImage i = .ok (some y)) ∧
      (createService w g svc).2.svcs =
        upsert w.svcs ((storedRecord g svc).uuid.getD "")
          (storedRecord g svc)) ∧
    (w.findFault SERVICES (.byUuid su) = none →
      (∀ kv ∈ w.svcs, kv.2.uuid ≠ some su) →
      (createInstance w g inst).1.errOf =
        some (.mk ("service " ++ su ++ " doesn\x27t exist")) ∧
      (createInstance w g inst).2 = w) ∧
    (validOwnerUUID w o = false →
      (createApplication w g app).1.errOf =
        some (.mk ("invalid user: " ++ o)) ∧
      (createApplication w g app).2 = w) := by
  refine ⟨?_, ?_, ?_, ?_, ?_, ?_⟩
  · intro e r hcb
    simp only [createService, hn, ha, hi] at hcb ⊢
    cases hga : getApplication w a with
    | error e2 => simp [hga]
    | ok oapp =>
      cases oapp with
      | none => simp [hga]
      | some x =>
        cases hgi : w.getImage i with
        | error e2 => simp [hga, hgi]
        | ok oimg =>
          cases oimg with
          | none => simp [hga, hgi]
          | some y =>
            cases hput : putObject { w with imgCalls := w.imgCalls ++ [i] }
                SERVICES ((storedRecord g svc).uuid.getD "")
                (storedRecord g svc) with
            | error e2 => simp [hga, hgi, hput]
            | ok w2 => simp [hga, hgi, hput] at hcb
  · intro hf habs
    have hga : getApplication w a = .ok none :=
      getObject_absent w APPLICATIONS a hf (by rw [bucket_apps]; exact habs)
    refine ⟨?_, ?_⟩ <;> simp [createService, hn, ha, hi, hga, CreateRes.errOf]
  · rintro ⟨x, hga⟩ himg
    rcases himg with hgi | ⟨e, hgi⟩ <;>
      refine ⟨?_, ?_⟩ <;>
        simp [createService, hn, ha, hi, hga, hgi, CreateRes.errOf]
  · intro hok
    simp only [createService, hn, ha, hi] at hok ⊢
    cases hga : getApplication w a with
    | error e2 => simp [hga, CreateRes.errOf] at hok
    | ok oapp =>
      cases oapp with
      | none => simp [hga, CreateRes.errOf] at hok
      | some x =>
        cases hgi : w.getImage i with
        | error e2 => simp [hga, hgi, CreateRes.errOf] at hok
        | ok oimg =>
          cases oimg with
          | none => simp [hga, hgi, CreateRes.errOf] at hok
          | some y =>
            cases hpf : w.putFault SERVICES
                ((storedRecord g svc).uuid.getD "") with
            | some e2 =>
                simp [hga, hgi, putObject, hpf, CreateRes.errOf] at hok
            | none =>
                refine ⟨⟨x, rfl⟩, ⟨y, rfl⟩, ?_⟩
                simp [hga, hgi, putObject, hpf, setBucket_svcs, bucket_svcs]
  · intro hf habs
    have hgs : getService w su = .ok none :=
      getObject_absent w SERVICES su hf (by rw [bucket_svcs]; exact habs)
    refine ⟨?_, ?_⟩ <;>
      simp [createInstance, hin1, hin2, hgs, CreateRes.errOf]
  · intro hv
    refine ⟨?_, ?_⟩ <;>
      simp [createApplication, han, hao, hv, CreateRes.errOf]

/-- Witness for C2: creating a service against an empty store fails with
the referential application error. -/
theorem create_refchecks_failfast_no_write_witness :
    (createService {} "g2"
      { name := some "s", application_uuid := some "a2",
        image_uuid := some "i2" }).1.errOf =
      some (.mk ("application " ++ "a2" ++ " doesn\x27t exist")) :=
  ((create_refchecks_failfast_no_write {} "g2" "s" "a2" "i2" "s2" "o2"
    { name := some "s", application_uuid := some "a2",
      image_uuid := some "i2" }
    { name := some "s", service_uuid := some "s2" }
    { name := some "s", owner_uuid := some "o2" }
    rfl rfl rfl rfl rfl rfl rfl).2.1 rfl (by decide)).1

/-- C5 (counterexample): a backend failure of the application lookup in
createService is not surfaced unmodified to the caller; the returned error
is the rewritten referential one. -/
theorem createService_storage_error_rewritten_cex :
    (createService
      { findFault := fun b f =>
          if b = APPLICATIONS ∧ f = .byUuid "a1" then some (.backend "boom")
          else none } "g1"
      { name := some "svc1", application_uuid := some "a1",
        image_uuid := some "i1" }).1.errOf ≠ some (.backend "boom") ∧
    (createService
      { findFault := fun b f =>
          if b = APPLICATIONS ∧ f = .byUuid "a1" then some (.backend "boom")
          else none } "g1"
      { name := some "svc1", application_uuid := some "a1",
        image_uuid := some "i1" }).1.errOf =
      some (.mk "application a1 doesn\x27t exist") := by
  constructor
  · decide
  · rfl

/-- C5 (amended): when the storage-layer lookup of the referenced
application itself fails, createService does not surface the storage error
unmodified; it rewrites the failure into the same referential
application-does-not-exist error as a not-found result, and writes
nothing. -/
theorem createService_storage_error_rewritten
    (w : World) (g nm a i : String) (svc : Entity) (e : Err)
    (hn : svc.name = some nm) (ha : svc.application_uuid = some a)
    (hi : svc.image_uuid = some i)
    (hf : w.findFault APPLICATIONS (.byUuid a) = some e) :
    (createService w g svc).1.errOf =
      some (.mk ("application " ++ a ++ " doesn\x27t exist")) ∧
    (createService w g svc).2 = w := by
  have hga : getApplication w a = .error e :=
    getObject_fault w APPLICATIONS a e hf
  refine ⟨?_, ?_⟩ <;>
    simp [createService, hn, ha, hi, hga, CreateRes.errOf]

/-- Witness for the amended C5 at an injected backend fault. -/
theorem createService_storage_error_rewritten_witness :
    (createService
      { findFault := fun b f =>
          if b = APPLICATIONS ∧ f = .byUuid "a3" then some (.backend "oops")
          else none } "g3"
      { name := some "s3", application_uuid := some "a3",
        image_uuid := some "i3" }).1.errOf =
      some (.mk ("application " ++ "a3" ++ " doesn\x27t exist")) :=
  (createService_storage_error_rewritten _ "g3" "s3" "a3" "i3" _
    (.backend "oops") rfl rfl rfl rfl).1

/-- C6: for a valid application record with a resolvable owner, healthy
storage, and a fresh identifier, createApplication then getApplication
returns exactly the input record plus a generated uuid when the caller
supplied none, and exactly the input record when a uuid was supplied; no
field beyond the caller record and uuid is added. -/
theorem createApplication_then_get_roundtrip
    (w : World) (g nm o key : String) (app : Entity)
    (h1 : app.name = some nm) (h2 : app.owner_uuid = some o)
    (h3 : w.getUser o = .ok ())
    (hk : (storedRecord g app).uuid = some key)
    (h4 : w.putFault APPLICATIONS key = none)
    (h5 : w.findFault APPLICATIONS (.byUuid key) = none)
    (h6 : ∀ kv ∈ w.apps, kv.1 ≠ key)
    (h7 : ∀ kv ∈ w.apps, kv.2.uuid ≠ some key) :
    (createApplication w g app).1 = .cb none (storedRecord g app) ∧
    getApplication (createApplication w g app).2 key =
      .ok (some (storedRecord g app)) ∧
    (app.uuid = none → storedRecord g app = { app with uuid := some g }) ∧
    (∀ u0, app.uuid = some u0 → storedRecord g app = app) := by
  have hv : validOwnerUUID w o = true := by simp [validOwnerUUID, h3]
  have hkey : (storedRecord g app).uuid.getD "" = key := by rw [hk]; rfl
  have hup : upsert w.apps key (storedRecord g app) =
      w.apps ++ [(key, storedRecord g app)] := by
    have hany : w.apps.any (fun kv => kv.1 = key) = false := by
      rw [List.any_eq_false]
      intro kv hkv
      simpa using h6 kv hkv
    simp [upsert, hany]
  have hcr : createApplication w g app =
      (.cb none (storedRecord g app),
        { w with apps := w.apps ++ [(key, storedRecord g app)] }) := by
    simp [createApplication, h1, h2, hv, putObject, hkey, h4, bucket_apps,
      setBucket_apps, hup]
  have hfil : w.apps.filter (fun kv => matchesFilter (.byUuid key) kv.2) =
      [] := filter_no_match _ _ h7
  have hget : getObject
      { w with apps := w.apps ++ [(key, storedRecord g app)] }
      APPLICATIONS key = .ok (some (storedRecord g app)) := by
    have hsingle : List.filter
        (fun kv => matchesFilter (Filter.byUuid key) kv.2)
        [(key, storedRecord g app)] = [(key, storedRecord g app)] := by
      simp [List.filter, matchesFilter, hk]
    simp [getObject, findObjects, h5, bucket_apps, List.filter_append, hfil,
      hsingle]
  refine ⟨by simp [hcr], ?_, ?_, ?_⟩
  · rw [hcr]
    exact hget
  · intro h
    simp [storedRecord, h]
  · intro u0 h
    simp [storedRecord, h]

/-- Witness for C6: create on an empty healthy world, then get. -/
theorem createApplication_then_get_roundtrip_witness :
    getApplication (createApplication {} "g6"
      { name := some "n6", owner_uuid := some "o6" }).2 "g6" =
      .ok (some { name := some "n6",
                  owner_uuid := some "o6",
                  uuid := some "g6" }) := by
  have h := (createApplication_then_get_roundtrip {} "g6" "n6" "o6" "g6"
    { name := some "n6", owner_uuid := some "o6" }
    rfl rfl rfl rfl rfl rfl (by decide) (by decide)).2.1
  simpa [storedRecord] using h

theorem svc_ne_app : SERVICES ≠ APPLICATIONS := by decide

theorem inst_ne_app : INSTANCES ≠ APPLICATIONS := by decide

theorem inst_ne_svc : INSTANCES ≠ SERVICES := by decide

theorem createBucket_healthy (b : BucketWorld) (m : String)
    (hg : b.getBucketFault m = none) (hc : b.createBucketFault m = none) :
    createBucket b m =
      (none, { b with existing :=
        if m ∈ b.existing then b.existing else b.existing ++ [m] }) := by
  by_cases hm : m ∈ b.existing
  · simp [createBucket, getBucket, hg, hm]
  · simp [createBucket, getBucket, hg, hm, hc]

theorem initBuckets_healthy (b : BucketWorld)
    (hgA : b.getBucketFault APPLICATIONS = none)
    (hgS : b.getBucketFault SERVICES = none)
    (hgI : b.getBucketFault INSTANCES = none)
    (hcA : b.createBucketFault APPLICATIONS = none)
    (hcS : b.createBucketFault SERVICES = none)
    (hcI : b.createBucketFault INSTANCES = none) :
    (initBuckets b).1 = none ∧
    (initBuckets b).2.getBucketFault = b.getBucketFault ∧
    (initBuckets b).2.createBucketFault = b.createBucketFault ∧
    APPLICATIONS ∈ (initBuckets b).2.existing ∧
    SERVICES ∈ (initBuckets b).2.existing ∧
    INSTANCES ∈ (initBuckets b).2.existing := by
  by_cases hmA : APPLICATIONS ∈ b.existing <;>
    by_cases hmS : SERVICES ∈ b.existing <;>
      by_cases hmI : INSTANCES ∈ b.existing <;>
        simp [initBuckets, createBucket, getBucket, hgA, hgS, hgI, hcA, hcS,
          hcI, hmA, hmS, hmI, List.mem_append, svc_ne_app, inst_ne_app,
          inst_ne_svc]

theorem orElse3_ne_none (a b c : Option Err) (e : Err)
    (h : a = some e ∨ b = some e ∨ c = some e) : (a <|> b <|> c) ≠ none := by
  cases a <;> cases b <;> cases c <;> simp_all

/-- C8: bucket initialization is idempotent: an existing bucket is left
untouched with success, running initBuckets twice on a healthy store
succeeds both times and leaves all three buckets present, and a failure of
any one of the three createBucket calls fails the whole initialization. -/
theorem initBuckets_idempotent (bw bw2 : BucketWorld) (n : String)
    (hgn : bw.getBucketFault n = none) (hmem : n ∈ bw.existing)
    (hgA : bw.getBucketFault APPLICATIONS = none)
    (hgS : bw.getBucketFault SERVICES = none)
    (hgI : bw.getBucketFault INSTANCES = none)
    (hcA : bw.createBucketFault APPLICATIONS = none)
    (hcS : bw.createBucketFault SERVICES = none)
    (hcI : bw.createBucketFault INSTANCES = none) :
    createBucket bw n = (none, bw) ∧
    (initBuckets bw).1 = none ∧
    (initBuckets (initBuckets bw).2).1 = none ∧
    APPLICATIONS ∈ (initBuckets (initBuckets bw).2).2.existing ∧
    SERVICES ∈ (initBuckets (initBuckets bw).2).2.existing ∧
    INSTANCES ∈ (initBuckets (initBuckets bw).2).2.existing ∧
    (∀ e : Err, ((createBucket bw2 APPLICATIONS).1 = some e ∨
        (createBucket (createBucket bw2 APPLICATIONS).2 SERVICES).1 =
          some e ∨
        (createBucket (createBucket (createBucket bw2 APPLICATIONS).2
          SERVICES).2 INSTANCES).1 = some e) →
      (initBuckets bw2).1 ≠ none) := by
  obtain ⟨i1, f1, f2, mA, mS, mI⟩ :=
    initBuckets_healthy bw hgA hgS hgI hcA hcS hcI
  obtain ⟨j1, _, _, nA, nS, nI⟩ := initBuckets_healthy (initBuckets bw).2
    (by rw [f1]; exact hgA) (by rw [f1]; exact hgS) (by rw [f1]; exact hgI)
    (by rw [f2]; exact hcA) (by rw [f2]; exact hcS) (by rw [f2]; exact hcI)
  refine ⟨?_, i1, j1, nA, nS, nI, ?_⟩
  · simp [createBucket, getBucket, hgn, hmem]
  · intro e h
    simp only [initBuckets]
    exact orElse3_ne_none _ _ _ e h

/-- Witness for C8 on a store already holding the applications bucket. -/
theorem initBuckets_idempotent_witness :
    (initBuckets { existing := [APPLICATIONS] }).1 = none :=
  (initBuckets_idempotent { existing := [APPLICATIONS] } {} APPLICATIONS
    rfl (by decide) rfl rfl rfl rfl rfl rfl).2.1

/-- C9: a deploy that reaches the provision stage submits exactly one
creation request, whose parameters are the assembled parameters with the
deployment-fixed fields attached; the fixed brand, ram, network list and
server placement overwrite any same-named assembled keys. -/
theorem deployZone_single_provision_request
    (w : World) (inst svc app : Entity) (su au : String) (P : Params)
    (hsu : inst.service_uuid = some su)
    (hfs : getService w su = .ok (some svc))
    (hau : svc.application_uuid = some au)
    (hfa : getApplication w au = .ok (some app))
    (hasm : assembleParams app svc inst = .ok P) :
    (deployInstance w inst).stage = 4 ∧
    (deployInstance w inst).world.vmCalls =
      w.vmCalls ++ [zoneFixedParams P] ∧
    (deployInstance w inst).crashed = none ∧
    jsGet (zoneFixedParams P) "brand" = some (.str "joyent-minimal") ∧
    jsGet (zoneFixedParams P) "ram" = some (.num 256) ∧
    jsGet (zoneFixedParams P) "networks" =
      some (.strs ["cda22a50-15bd-43cf-b379-be0cbac60cb4"]) ∧
    jsGet (zoneFixedParams P) "server_uuid" =
      some (.str "44454c4c-4800-1034-804a-b2c04f354d31") := by
  have hbrand : jsGet (zoneFixedParams P) "brand" =
      some (.str "joyent-minimal") := by
    simp only [zoneFixedParams]
    rw [jsGet_jsSet, if_neg (by decide), jsGet_jsSet, if_neg (by decide),
      jsGet_jsSet, if_neg (by decide), jsGet_jsSet, if_pos rfl]
  have hram : jsGet (zoneFixedParams P) "ram" = some (.num 256) := by
    simp only [zoneFixedParams]
    rw [jsGet_jsSet, if_neg (by decide), jsGet_jsSet, if_neg (by decide),
      jsGet_jsSet, if_pos rfl]
  have hnet : jsGet (zoneFixedParams P) "networks" =
      some (.strs ["cda22a50-15bd-43cf-b379-be0cbac60cb4"]) := by
    simp only [zoneFixedParams]
    rw [jsGet_jsSet, if_neg (by decide), jsGet_jsSet, if_pos rfl]
  have hsrv : jsGet (zoneFixedParams P) "server_uuid" =
      some (.str "44454c4c-4800-1034-804a-b2c04f354d31") := by
    simp only [zoneFixedParams]
    rw [jsGet_jsSet, if_pos rfl]
  cases hvm : w.createVmRes (zoneFixedParams P) with
  | some e =>
      refine ⟨?_, ?_, ?_, hbrand, hram, hnet, hsrv⟩ <;>
        simp [deployInstance, hsu, hfs, hau, hfa, hasm, deployZone, hvm]
  | none =>
      refine ⟨?_, ?_, ?_, hbrand, hram, hnet, hsrv⟩ <;>
        simp [deployInstance, hsu, hfs, hau, hfa, hasm, deployZone, hvm]

/-- Witness for C9: an end-to-end deploy on a two-record world. -/
theorem deployZone_single_provision_request_witness :
    (deployInstance
      { apps := [("ap", { uuid := some "ap", owner_uuid := some "ow" })],
        svcs := [("sv", { uuid := some "sv",
                          application_uuid := some "ap",
                          image_uuid := some "im" })] }
      { uuid := some "in", service_uuid := some "sv" }).world.vmCalls =
      [] ++ [zoneFixedParams [("owner_uuid", .str "ow"),
        ("image_uuid", .str "im"), ("uuid", .str "in")]] :=
  (deployZone_single_provision_request
    { apps := [("ap", { uuid := some "ap", owner_uuid := some "ow" })],
      svcs := [("sv", { uuid := some "sv",
                        application_uuid := some "ap",
                        image_uuid := some "im" })] }
    { uuid := some "in", service_uuid := some "sv" }
    { uuid := some "sv", application_uuid := some "ap",
      image_uuid := some "im" }
    { uuid := some "ap", owner_uuid := some "ow" }
    "sv" "ap"
    [("owner_uuid", .str "ow"), ("image_uuid", .str "im"),
      ("uuid", .str "in")]
    rfl rfl rfl rfl rfl).2.1

end Sapi
